import Mathlib

/-!
Shallow embedding of `src/lib/many_to_many.py`.

The module defines three Python classes — `Author`, `Book`, `Contract` —
each keeping a process-wide append-only registry (`Author.all`, `Book.all`,
`Contract.all`).  Validation happens in property setters that raise an
`Exception` carrying a message naming the field.  We model:

* object identity by reference values (`AuthorRef`, `BookRef`) carrying a
  numeric identity; Python's `is` becomes equality of references;
* dynamic arguments by `PyVal`; `isinstance` checks become Boolean
  functions on `PyVal`.  In Python, `bool` is a subclass of `int`, so
  `isinstance(True, int)` is true; an instance of a subclass of `Author`
  satisfies `isinstance(v, Author)`, which we model with a `subclass` flag
  on references that the check ignores;
* a raised exception by `Except String`, the `String` being the message;
* the three registries by a `State` record; `__init__` runs the validating
  setters in source order and appends to the registry only after all of
  them succeed, so on error the returned `Except.error` carries no state:
  the registries are unchanged, exactly as in the source where
  `...all.append(self)` is the last line of `__init__`.
-/

/-- Reference to an `Author` object: `id` is the object identity,
`subclass` records whether the object's class is a strict subclass of
`Author` (Python's `isinstance` accepts those too). -/
structure AuthorRef where
  id : Nat
  subclass : Bool
deriving DecidableEq, Repr

/-- Reference to a `Book` object, same shape as `AuthorRef`. -/
structure BookRef where
  id : Nat
  subclass : Bool
deriving DecidableEq, Repr

/-- A Python value that can pass `isinstance(·, int)`: either a true `int`
or a `bool` (in Python `bool` is a subclass of `int`; `True` counts as 1 in
arithmetic). -/
inductive PyInt where
  | int (n : Int)
  | bool (b : Bool)
deriving DecidableEq, Repr

/-- Numeric value of a stored `royalties` field, as Python's `sum` sees it
(`True` is 1, `False` is 0). -/
def PyInt.toInt : PyInt → Int
  | .int n => n
  | .bool b => if b then 1 else 0

/-- Dynamic Python values that client code may pass to the constructors and
setters of the module. -/
inductive PyVal where
  | vstr (s : String)
  | vint (n : Int)
  | vbool (b : Bool)
  | vauthor (r : AuthorRef)
  | vbook (r : BookRef)
  | vnone
deriving DecidableEq, Repr

/-- `isinstance(value, str)`. -/
def isinstance_str : PyVal → Bool
  | .vstr _ => true
  | _ => false

/-- `isinstance(value, int)`: true for `int` and for `bool`, because
Python's `bool` is a subclass of `int`. -/
def isinstance_int : PyVal → Bool
  | .vint _ => true
  | .vbool _ => true
  | _ => false

/-- `isinstance(value, Author)`: true for any `Author` instance, including
instances of subclasses of `Author` (the `subclass` flag is ignored). -/
def isinstance_Author : PyVal → Bool
  | .vauthor _ => true
  | _ => false

/-- `isinstance(value, Book)`. -/
def isinstance_Book : PyVal → Bool
  | .vbook _ => true
  | _ => false

/-- An `Author` object: its reference (identity) and its validated
`_name` attribute. -/
structure AuthorObj where
  ref : AuthorRef
  name : String
deriving DecidableEq, Repr

/-- A `Book` object: its reference and its validated `_title` attribute. -/
structure BookObj where
  ref : BookRef
  title : String
deriving DecidableEq, Repr

/-- A `Contract` object after successful construction: `id` is its object
identity; `author` and `book` hold the references stored by the setters,
`date` the validated string, `royalties` the validated int-or-bool. -/
structure Contract where
  id : Nat
  author : AuthorRef
  book : BookRef
  date : String
  royalties : PyInt
deriving DecidableEq, Repr

/-- The process-wide registries `Author.all`, `Book.all`, `Contract.all`,
in insertion order. -/
structure State where
  authorAll : List AuthorObj
  bookAll : List BookObj
  contractAll : List Contract
deriving DecidableEq, Repr

/-- The `Author.name` property setter: raises
`Exception("Author.name must be a string")` unless the value is a string;
otherwise stores it. -/
def author_name_set (value : PyVal) : Except String String :=
  match value with
  | .vstr s => .ok s
  | _ => .error "Author.name must be a string"

/-- The `Book.title` property setter. -/
def book_title_set (value : PyVal) : Except String String :=
  match value with
  | .vstr s => .ok s
  | _ => .error "Book.title must be a string"

/-- The `Contract.author` property setter: raises unless
`isinstance(value, Author)`; any `Author` instance (subclass instances
included) is stored. -/
def contract_author_set (value : PyVal) : Except String AuthorRef :=
  match value with
  | .vauthor r => .ok r
  | _ => .error "Contract.author must be an Author"

/-- The `Contract.book` property setter. -/
def contract_book_set (value : PyVal) : Except String BookRef :=
  match value with
  | .vbook r => .ok r
  | _ => .error "Contract.book must be a Book"

/-- The `Contract.date` property setter: any string is accepted. -/
def contract_date_set (value : PyVal) : Except String String :=
  match value with
  | .vstr s => .ok s
  | _ => .error "Contract.date must be a str"

/-- The `Contract.royalties` property setter: `isinstance(value, int)`
accepts both `int` and `bool` values. -/
def contract_royalties_set (value : PyVal) : Except String PyInt :=
  match value with
  | .vint n => .ok (.int n)
  | .vbool b => .ok (.bool b)
  | _ => .error "Contract.royalties must be an int"

/-- `Author.__init__(self, name)`: runs the `name` setter, then appends the
new object to `Author.all`.  `fid` is the fresh object identity; a directly
constructed object's class is `Author` itself (`subclass := false`). -/
def Author.init (st : State) (name : PyVal) (fid : Nat) :
    Except String (State × AuthorObj) :=
  match author_name_set name with
  | .ok s =>
      let a : AuthorObj := ⟨⟨fid, false⟩, s⟩
      .ok ({ st with authorAll := st.authorAll ++ [a] }, a)
  | .error e => .error e

/-- `Book.__init__(self, title)`. -/
def Book.init (st : State) (title : PyVal) (fid : Nat) :
    Except String (State × BookObj) :=
  match book_title_set title with
  | .ok s =>
      let b : BookObj := ⟨⟨fid, false⟩, s⟩
      .ok ({ st with bookAll := st.bookAll ++ [b] }, b)
  | .error e => .error e

/-- Assigning `a.name = value` on an existing `Author` object: re-runs the
same property setter; on success the object's `_name` is replaced. -/
def Author.set_name (a : AuthorObj) (value : PyVal) : Except String AuthorObj :=
  match author_name_set value with
  | .ok s => .ok { a with name := s }
  | .error e => .error e

/-- Assigning `b.title = value` on an existing `Book` object. -/
def Book.set_title (b : BookObj) (value : PyVal) : Except String BookObj :=
  match book_title_set value with
  | .ok s => .ok { b with title := s }
  | .error e => .error e

/-- `Contract.__init__(self, author, book, date, royalties)`: runs the four
property setters in source order (author, book, date, royalties), failing
on the first invalid field; only after all succeed does it append the new
object to `Contract.all` and return it. -/
def Contract.init (st : State) (author book date royalties : PyVal)
    (fid : Nat) : Except String (State × Contract) := do
  let a ← contract_author_set author
  let b ← contract_book_set book
  let d ← contract_date_set date
  let r ← contract_royalties_set royalties
  let c : Contract := ⟨fid, a, b, d, r⟩
  pure ({ st with contractAll := st.contractAll ++ [c] }, c)

/-- `Author.contracts(self)`:
`[c for c in Contract.all if c.author is self]`. -/
def Author.contracts (st : State) (self : AuthorRef) : List Contract :=
  st.contractAll.filter (fun c => c.author == self)

/-- `Book.contracts(self)`:
`[c for c in Contract.all if c.book is self]`. -/
def Book.contracts (st : State) (self : BookRef) : List Contract :=
  st.contractAll.filter (fun c => c.book == self)

/-- `list({...})` over a Python set built from the listed elements.  A
Python set deduplicates by identity and iterates in an unspecified order;
we model it by one concrete duplicate-free enumeration of the same
elements. -/
def pySetToList {α : Type} [DecidableEq α] (l : List α) : List α :=
  l.dedup

/-- `Author.books(self)`: `list({c.book for c in self.contracts()})`. -/
def Author.books (st : State) (self : AuthorRef) : List BookRef :=
  pySetToList ((Author.contracts st self).map (fun c => c.book))

/-- `Book.authors(self)`: `list({c.author for c in self.contracts()})`. -/
def Book.authors (st : State) (self : BookRef) : List AuthorRef :=
  pySetToList ((Book.contracts st self).map (fun c => c.author))

/-- `Author.sign_contract(self, book, date, royalties)`:
`return Contract(self, book, date, royalties)`. -/
def Author.sign_contract (st : State) (self : AuthorRef)
    (book date royalties : PyVal) (fid : Nat) :
    Except String (State × Contract) :=
  Contract.init st (.vauthor self) book date royalties fid

/-- `Author.total_royalties(self)`:
`sum(c.royalties for c in self.contracts())` (Python's `sum` of an empty
sequence is 0, and counts `True` as 1). -/
def Author.total_royalties (st : State) (self : AuthorRef) : Int :=
  ((Author.contracts st self).map (fun c => c.royalties.toInt)).sum

/-- `Contract.contracts_by_date(cls, date)`:
`[c for c in cls.all if c.date == date]`. -/
def Contract.contracts_by_date (st : State) (date : String) : List Contract :=
  st.contractAll.filter (fun c => c.date == date)

/-- `Contract.all` as observed after an attempted construction: on success
the appended registry, on an exception the registry as it was, since
`Contract.all.append(self)` is the last line of `__init__` and never runs
when a setter raises. -/
def Contract.all_after_init (st : State) (author book date royalties : PyVal)
    (fid : Nat) : List Contract :=
  match Contract.init st author book date royalties fid with
  | .ok (st', _) => st'.contractAll
  | .error _ => st.contractAll

/-- `Author.all` as observed after an attempted construction. -/
def Author.all_after_init (st : State) (name : PyVal) (fid : Nat) :
    List AuthorObj :=
  match Author.init st name fid with
  | .ok (st', _) => st'.authorAll
  | .error _ => st.authorAll

/-- `Book.all` as observed after an attempted construction. -/
def Book.all_after_init (st : State) (title : PyVal) (fid : Nat) :
    List BookObj :=
  match Book.init st title fid with
  | .ok (st', _) => st'.bookAll
  | .error _ => st.bookAll

/-! Concrete scenario objects used by closed theorems and witnesses. -/

/-- Identity of the author `jo` from the spec's scenarios. -/
def joRef : AuthorRef := ⟨0, false⟩

/-- Identity of the book `bookX` from the spec's scenarios. -/
def bookXRef : BookRef := ⟨0, false⟩

/-- A state with one registered author `Jo` and no books or contracts. -/
def st0 : State := ⟨[⟨joRef, "Jo"⟩], [], []⟩

/-- A registered contract of `jo` on `bookX` dated 2020-01-01 for 100. -/
def c100 : Contract := ⟨2, joRef, bookXRef, "2020-01-01", .int 100⟩

/-- A state with `jo`, `bookX` and the single contract `c100`. -/
def st1 : State := ⟨[⟨joRef, "Jo"⟩], [⟨bookXRef, "X"⟩], [c100]⟩

/-- C1: for every Author `a`, Book `b`, string `d` and integer `r`,
`a.sign_contract(b, d, r)` returns a Contract `c` with `c.author is a`,
`c.book is b`, `c.date == d`, `c.royalties == r`, and `c` appears in both
`a.contracts()` and `b.contracts()` in the resulting state. -/
theorem sign_contract_spec (st : State) (a : AuthorRef) (b : BookRef)
    (d : String) (r : Int) (fid : Nat) :
    ∃ st' c, Author.sign_contract st a (.vbook b) (.vstr d) (.vint r) fid
        = .ok (st', c)
      ∧ c.author = a ∧ c.book = b ∧ c.date = d ∧ c.royalties = .int r
      ∧ c ∈ Author.contracts st' a ∧ c ∈ Book.contracts st' b := by
  refine ⟨{ st with contractAll := st.contractAll ++ [⟨fid, a, b, d, .int r⟩] },
    ⟨fid, a, b, d, .int r⟩, rfl, rfl, rfl, rfl, rfl, ?_, ?_⟩
  · simp [Author.contracts, List.mem_filter]
  · simp [Book.contracts, List.mem_filter]

/-- C2: `Contract.contracts_by_date(d)` returns exactly the registered
contracts whose date equals `d` (exact string equality), as a sublist of
the registry (hence in insertion order) whose length is the number of
matches, and it is empty when no registered contract has date `d`. -/
theorem contracts_by_date_spec (st : State) (d : String) :
    (∀ c, c ∈ Contract.contracts_by_date st d
        ↔ c ∈ st.contractAll ∧ c.date = d)
    ∧ (Contract.contracts_by_date st d).Sublist st.contractAll
    ∧ (Contract.contracts_by_date st d).length
        = st.contractAll.countP (fun c => c.date == d)
    ∧ ((∀ c ∈ st.contractAll, c.date ≠ d)
        → Contract.contracts_by_date st d = []) := by
  refine ⟨?_, List.filter_sublist _, ?_, ?_⟩
  · intro c
    simp [Contract.contracts_by_date, List.mem_filter]
  · simp [Contract.contracts_by_date, List.countP_eq_length_filter]
  · intro h
    simp only [Contract.contracts_by_date, List.filter_eq_nil_iff]
    intro c hc
    simpa using h c hc

/-- C2 witness: in the state `st1`, whose only contract is dated
2020-01-01, querying a different date yields the empty list, by the main
theorem's empty-case clause. -/
theorem contracts_by_date_spec_witness :
    Contract.contracts_by_date st1 "1999-12-31" = [] :=
  (contracts_by_date_spec st1 "1999-12-31").2.2.2 (by decide)

/-- C3: `a.contracts()` consists exactly of the registered contracts whose
author reference is `a` (identity comparison), as a sublist of the registry
(insertion order) with one entry per match; symmetrically for
`b.contracts()` over the book reference. -/
theorem contracts_filter_spec (st : State) (a : AuthorRef) (b : BookRef) :
    (∀ c, c ∈ Author.contracts st a ↔ c ∈ st.contractAll ∧ c.author = a)
    ∧ (Author.contracts st a).Sublist st.contractAll
    ∧ (Author.contracts st a).length
        = st.contractAll.countP (fun c => c.author == a)
    ∧ (∀ c, c ∈ Book.contracts st b ↔ c ∈ st.contractAll ∧ c.book = b)
    ∧ (Book.contracts st b).Sublist st.contractAll
    ∧ (Book.contracts st b).length
        = st.contractAll.countP (fun c => c.book == b) := by
  refine ⟨?_, List.filter_sublist _, ?_, ?_, List.filter_sublist _, ?_⟩
  · intro c
    simp [Author.contracts, List.mem_filter]
  · simp [Author.contracts, List.countP_eq_length_filter]
  · intro c
    simp [Book.contracts, List.mem_filter]
  · simp [Book.contracts, List.countP_eq_length_filter]

/-- C4: `a.books()` contains exactly the distinct books appearing in
`a.contracts()`, with no duplicates; symmetrically `b.authors()` contains
exactly the distinct authors appearing in `b.contracts()`, with no
duplicates (order unspecified, so only membership and uniqueness are
stated). -/
theorem books_authors_spec (st : State) (a : AuthorRef) (b : BookRef) :
    (∀ bk, bk ∈ Author.books st a
        ↔ bk ∈ (Author.contracts st a).map (fun c => c.book))
    ∧ (Author.books st a).Nodup
    ∧ (∀ au, au ∈ Book.authors st b
        ↔ au ∈ (Book.contracts st b).map (fun c => c.author))
    ∧ (Book.authors st b).Nodup := by
  refine ⟨?_, List.nodup_dedup _, ?_, List.nodup_dedup _⟩
  · intro bk
    simp [Author.books, pySetToList, List.mem_dedup]
  · intro au
    simp [Book.authors, pySetToList, List.mem_dedup]

/-- C5: `a.total_royalties()` equals the sum of the royalties of the
contracts in `a.contracts()`, and equals 0 when `a.contracts()` is
empty. -/
theorem total_royalties_spec (st : State) (a : AuthorRef) :
    Author.total_royalties st a
        = ((Author.contracts st a).map (fun c => c.royalties.toInt)).sum
    ∧ (Author.contracts st a = [] → Author.total_royalties st a = 0) := by
  refine ⟨rfl, ?_⟩
  intro h
  simp [Author.total_royalties, h]

/-- C5 witness: in `st0` the author `jo` has no contracts, and the main
theorem's empty clause gives total royalties 0. -/
theorem total_royalties_spec_witness :
    Author.contracts st0 joRef = [] ∧ Author.total_royalties st0 joRef = 0 :=
  ⟨by decide, (total_royalties_spec st0 joRef).2 (by decide)⟩

/-- Helper: a value failing `isinstance(·, Author)` makes the author setter
raise its message. -/
theorem contract_author_set_err (v : PyVal) (h : isinstance_Author v = false) :
    contract_author_set v = .error "Contract.author must be an Author" := by
  cases v <;> simp_all [isinstance_Author, contract_author_set]

/-- Helper: a value passing `isinstance(·, Author)` is stored by the author
setter. -/
theorem contract_author_set_ok (v : PyVal) (h : isinstance_Author v = true) :
    ∃ r, contract_author_set v = .ok r := by
  cases v <;> simp_all [isinstance_Author, contract_author_set]

/-- Helper: book setter failure case. -/
theorem contract_book_set_err (v : PyVal) (h : isinstance_Book v = false) :
    contract_book_set v = .error "Contract.book must be a Book" := by
  cases v <;> simp_all [isinstance_Book, contract_book_set]

/-- Helper: book setter success case. -/
theorem contract_book_set_ok (v : PyVal) (h : isinstance_Book v = true) :
    ∃ r, contract_book_set v = .ok r := by
  cases v <;> simp_all [isinstance_Book, contract_book_set]

/-- Helper: date setter failure case. -/
theorem contract_date_set_err (v : PyVal) (h : isinstance_str v = false) :
    contract_date_set v = .error "Contract.date must be a str" := by
  cases v <;> simp_all [isinstance_str, contract_date_set]

/-- Helper: date setter success case. -/
theorem contract_date_set_ok (v : PyVal) (h : isinstance_str v = true) :
    ∃ s, contract_date_set v = .ok s := by
  cases v <;> simp_all [isinstance_str, contract_date_set]

/-- Helper: royalties setter failure case. -/
theorem contract_royalties_set_err (v : PyVal) (h : isinstance_int v = false) :
    contract_royalties_set v = .error "Contract.royalties must be an int" := by
  cases v <;> simp_all [isinstance_int, contract_royalties_set]

/-- Helper: royalties setter success case. -/
theorem contract_royalties_set_ok (v : PyVal) (h : isinstance_int v = true) :
    ∃ r, contract_royalties_set v = .ok r := by
  cases v <;> simp_all [isinstance_int, contract_royalties_set]

/-- C6: Contract construction validates author, book, date, royalties in
that order, failing with the message naming the first invalid field; when
all four are valid it appends the new contract to the registry and returns
it. -/
theorem contract_init_validation (st : State) (a b d r : PyVal) (fid : Nat) :
    (isinstance_Author a = false →
      Contract.init st a b d r fid
        = .error "Contract.author must be an Author")
    ∧ (isinstance_Author a = true → isinstance_Book b = false →
      Contract.init st a b d r fid
        = .error "Contract.book must be a Book")
    ∧ (isinstance_Author a = true → isinstance_Book b = true →
        isinstance_str d = false →
      Contract.init st a b d r fid
        = .error "Contract.date must be a str")
    ∧ (isinstance_Author a = true → isinstance_Book b = true →
        isinstance_str d = true → isinstance_int r = false →
      Contract.init st a b d r fid
        = .error "Contract.royalties must be an int")
    ∧ (isinstance_Author a = true → isinstance_Book b = true →
        isinstance_str d = true → isinstance_int r = true →
      ∃ c, Contract.init st a b d r fid
          = .ok ({ st with contractAll := st.contractAll ++ [c] }, c)) := by
  refine ⟨?_, ?_, ?_, ?_, ?_⟩
  · intro ha
    simp [Contract.init, contract_author_set_err a ha, Bind.bind, Except.bind]
  · intro ha hb
    obtain ⟨ra, hra⟩ := contract_author_set_ok a ha
    simp [Contract.init, hra, contract_book_set_err b hb, Bind.bind,
      Except.bind]
  · intro ha hb hd
    obtain ⟨ra, hra⟩ := contract_author_set_ok a ha
    obtain ⟨rb, hrb⟩ := contract_book_set_ok b hb
    simp [Contract.init, hra, hrb, contract_date_set_err d hd, Bind.bind,
      Except.bind]
  · intro ha hb hd hr
    obtain ⟨ra, hra⟩ := contract_author_set_ok a ha
    obtain ⟨rb, hrb⟩ := contract_book_set_ok b hb
    obtain ⟨rd, hrd⟩ := contract_date_set_ok d hd
    simp [Contract.init, hra, hrb, hrd, contract_royalties_set_err r hr,
      Bind.bind, Except.bind, Functor.map, Except.map]
  · intro ha hb hd hr
    obtain ⟨ra, hra⟩ := contract_author_set_ok a ha
    obtain ⟨rb, hrb⟩ := contract_book_set_ok b hb
    obtain ⟨rd, hrd⟩ := contract_date_set_ok d hd
    obtain ⟨rr, hrr⟩ := contract_royalties_set_ok r hr
    exact ⟨⟨fid, ra, rb, rd, rr⟩, by
      simp [Contract.init, hra, hrb, hrd, hrr, Bind.bind, Except.bind,
        Functor.map, Except.map, Pure.pure, Except.pure]⟩

/-- C6 witness: concrete applications of each clause: a non-Author author
argument fails naming `author`; four valid fields succeed and append. -/
theorem contract_init_validation_witness :
    Contract.init st0 .vnone (.vbook bookXRef) (.vstr "2020-01-01")
        (.vint 7) 3
      = .error "Contract.author must be an Author"
    ∧ ∃ c, Contract.init st0 (.vauthor joRef) (.vbook bookXRef)
          (.vstr "2020-01-01") (.vint 7) 3
        = .ok ({ st0 with contractAll := st0.contractAll ++ [c] }, c) :=
  ⟨(contract_init_validation st0 .vnone (.vbook bookXRef)
      (.vstr "2020-01-01") (.vint 7) 3).1 rfl,
   (contract_init_validation st0 (.vauthor joRef) (.vbook bookXRef)
      (.vstr "2020-01-01") (.vint 7) 3).2.2.2.2 rfl rfl rfl rfl⟩

/-- C7: constructing `Contract(jo, "not a book", "2020-01-01", 50)` raises
the book validation error and leaves the Contract registry (and its
length) unchanged. -/
theorem contract_invalid_book_scenario :
    Contract.init st0 (.vauthor joRef) (.vstr "not a book")
        (.vstr "2020-01-01") (.vint 50) 1
      = .error "Contract.book must be a Book"
    ∧ Contract.all_after_init st0 (.vauthor joRef) (.vstr "not a book")
        (.vstr "2020-01-01") (.vint 50) 1 = st0.contractAll
    ∧ (Contract.all_after_init st0 (.vauthor joRef) (.vstr "not a book")
        (.vstr "2020-01-01") (.vint 50) 1).length
      = st0.contractAll.length :=
  ⟨rfl, rfl, rfl⟩

/-- C8: for every non-string value, the `Author.name` setter — and hence
both `Author(v)` and a later `a.name = v` assignment — raises the error at
the point of assignment, and likewise for `Book.title`; for every string
`s`, `Author(s).name == s` and `Book(s).title == s`. -/
theorem name_title_validation :
    (∀ v, isinstance_str v = false →
        author_name_set v = .error "Author.name must be a string"
      ∧ (∀ st fid, Author.init st v fid
          = .error "Author.name must be a string")
      ∧ (∀ a, Author.set_name a v = .error "Author.name must be a string")
      ∧ book_title_set v = .error "Book.title must be a string"
      ∧ (∀ st fid, Book.init st v fid
          = .error "Book.title must be a string")
      ∧ (∀ b, Book.set_title b v = .error "Book.title must be a string"))
    ∧ (∀ s st fid, ∃ st' a, Author.init st (.vstr s) fid = .ok (st', a)
        ∧ a.name = s)
    ∧ (∀ s st fid, ∃ st' b, Book.init st (.vstr s) fid = .ok (st', b)
        ∧ b.title = s) := by
  refine ⟨?_, ?_, ?_⟩
  · intro v hv
    cases v <;>
      simp_all [isinstance_str, author_name_set, book_title_set,
        Author.init, Book.init, Author.set_name, Book.set_title]
  · intro s st fid
    exact ⟨_, _, rfl, rfl⟩
  · intro s st fid
    exact ⟨_, _, rfl, rfl⟩

/-- C8 witness: applying the main theorem at the non-string value `5` and
at the string "Jo": construction and mutation with `5` raise the naming
errors, and `Author("Jo").name == "Jo"`. -/
theorem name_title_validation_witness :
    author_name_set (.vint 5) = .error "Author.name must be a string"
    ∧ Author.init st0 (.vint 5) 4 = .error "Author.name must be a string"
    ∧ Author.set_name ⟨joRef, "Jo"⟩ (.vint 5)
      = .error "Author.name must be a string"
    ∧ Book.set_title ⟨bookXRef, "X"⟩ (.vint 5)
      = .error "Book.title must be a string"
    ∧ ∃ st' a, Author.init st0 (.vstr "Jo") 4 = .ok (st', a)
        ∧ a.name = "Jo" :=
  ⟨(name_title_validation.1 (.vint 5) rfl).1,
   (name_title_validation.1 (.vint 5) rfl).2.1 st0 4,
   (name_title_validation.1 (.vint 5) rfl).2.2.1 ⟨joRef, "Jo"⟩,
   (name_title_validation.1 (.vint 5) rfl).2.2.2.2.2 ⟨bookXRef, "X"⟩,
   name_title_validation.2.1 "Jo" st0 4⟩

/-- C9: the `isinstance(·, int)` check accepts booleans (Python's `bool`
subclasses `int`), so a Contract whose royalties argument is a boolean is
constructed and registered; the author and book checks likewise accept
instances of subclasses of `Author` and `Book` (arbitrary `subclass`
flag). -/
theorem bool_royalties_subclass_accepted (st : State) (aid bid : Nat)
    (asub bsub : Bool) (d : String) (bl : Bool) (fid : Nat) :
    isinstance_int (.vbool bl) = true
    ∧ isinstance_Author (.vauthor ⟨aid, asub⟩) = true
    ∧ isinstance_Book (.vbook ⟨bid, bsub⟩) = true
    ∧ ∃ c, Contract.init st (.vauthor ⟨aid, asub⟩) (.vbook ⟨bid, bsub⟩)
          (.vstr d) (.vbool bl) fid
        = .ok ({ st with contractAll := st.contractAll ++ [c] }, c)
      ∧ c.royalties = .bool bl
      ∧ c ∈ Contract.all_after_init st (.vauthor ⟨aid, asub⟩)
          (.vbook ⟨bid, bsub⟩) (.vstr d) (.vbool bl) fid := by
  refine ⟨rfl, rfl, rfl,
    ⟨fid, ⟨aid, asub⟩, ⟨bid, bsub⟩, d, .bool bl⟩, rfl, rfl, ?_⟩
  have h : Contract.all_after_init st (.vauthor ⟨aid, asub⟩)
      (.vbook ⟨bid, bsub⟩) (.vstr d) (.vbool bl) fid
      = st.contractAll ++ [⟨fid, ⟨aid, asub⟩, ⟨bid, bsub⟩, d, .bool bl⟩] :=
    rfl
  rw [h]
  simp

/-- C10: a failed Author or Book construction (non-string name or title)
leaves that entity's registry unchanged: the error is raised before the
append. -/
theorem failed_init_leaves_registry (st : State) (v : PyVal) (fid : Nat)
    (hv : isinstance_str v = false) :
    Author.all_after_init st v fid = st.authorAll
    ∧ Book.all_after_init st v fid = st.bookAll := by
  cases v <;>
    simp_all [isinstance_str, Author.all_after_init, Book.all_after_init,
      Author.init, Book.init, author_name_set, book_title_set]

/-- C10 witness: the registries of `st0` survive a construction attempt
with the integer `7` as the name or title. -/
theorem failed_init_leaves_registry_witness :
    Author.all_after_init st0 (.vint 7) 9 = st0.authorAll
    ∧ Book.all_after_init st0 (.vint 7) 9 = st0.bookAll :=
  failed_init_leaves_registry st0 (.vint 7) 9 rfl
